import Mathlib

/-!
Shallow embedding of `src/neurons/validator.py` (the oneoneone subnet
validator glue file) and proofs of the specification claims about it.

The file under verification contains no algorithmic core: it defines a
`Validator` subclass of an external `BaseValidatorNeuron`, whose
`__init__` calls the base constructor, logs twice and calls
`load_state()`, whose `forward` method awaits an external `forward`
coroutine, and a `__main__` block that constructs a `Validator` inside a
`with` statement and then loops forever logging a timestamp and sleeping
30 seconds.

Modelling choices:
* Effects are traces: a computation is `Eff α = List Event × Except Nat α`,
  a list of observable events (log lines, sleeps, calls into external
  code) together with either a result or a propagating exception
  (exceptions are opaque, represented by a `Nat` code).
* External collaborators (the base class constructor, `load_state`,
  `__enter__`, `__exit__`, and the external `forward` coroutine) are an
  abstract environment `Env` of arbitrary behaviours; the embedding wraps
  each call in a marker event so the trace records exactly which external
  calls this file makes and with which arguments.
* Python mutation of `self` is modelled by explicit state passing of a
  `BaseState` value; the external `forward` coroutine may both return a
  value and replace the state.
* The unbounded `while True` loop is given fuel-indexed semantics:
  `loopRun time i n s` runs `n` iterations starting at iteration index
  `i`; `RunState.more` means execution is still inside the loop,
  `RunState.done` means the loop terminated normally (its guard failed).
-/

/-- Severity of a log line emitted through `bt.logging`. -/
inductive LogLevel
  | info
  | success
deriving DecidableEq, Repr

/-- Modelled from the spec: the configuration object is owned by the
external base class, which is not part of the provided sources; spec §6
says only that it carries a `netuid` field, which this file reads for
logging. -/
structure Config where
  netuid : Nat
deriving DecidableEq, Repr

/-- Modelled from the spec: the state the external `BaseValidatorNeuron`
establishes on an instance. Spec §6: a `config` object with a `netuid`
field and a `uid` field are provided by the base class; `internal` stands
for whatever further base-owned state exists. The `Validator` subclass in
this file adds no fields of its own, so its instance state is exactly
`BaseState`. -/
structure BaseState where
  config : Config
  uid : Nat
  internal : Nat
deriving DecidableEq, Repr

/-- Observable events of the embedded program: log lines, sleeps, and
the calls this file makes into external code (with their arguments where
the argument is data this file chose). -/
inductive Event
  | log (lv : LogLevel) (msg : String)
  | sleep (secs : Nat)
  | callBaseInit (cfg : Option Config)
  | callLoadState
  | callForward
  | callEnter
  | callExit
deriving DecidableEq, Repr

/-- An effectful computation: the events it emits, and either a value or
a propagating exception (opaque `Nat` code). -/
abbrev Eff (α : Type) : Type := List Event × Except Nat α

/-- Return a value, emitting no events. -/
def Eff.pure {α : Type} (a : α) : Eff α := ([], Except.ok a)

/-- Sequential composition: events concatenate; an exception in the first
computation skips the second (Python semantics of an uncaught exception). -/
def Eff.bind {α β : Type} (m : Eff α) (f : α → Eff β) : Eff β :=
  match m with
  | (evs, Except.error e) => (evs, Except.error e)
  | (evs, Except.ok a) => (evs ++ (f a).1, (f a).2)

/-- Embed `bt.logging.info(msg)`. -/
def logInfo (msg : String) : Eff Unit := ([Event.log LogLevel.info msg], Except.ok ())

/-- Embed `bt.logging.success(msg)`. -/
def logSuccess (msg : String) : Eff Unit := ([Event.log LogLevel.success msg], Except.ok ())

/-- Embed `time.sleep(secs)`. -/
def sleepFor (secs : Nat) : Eff Unit := ([Event.sleep secs], Except.ok ())

/-- Wrap a call into external code: emit the marker event, then behave as
the external result (value or exception). -/
def extCall {α : Type} (e : Event) (x : Except Nat α) : Eff α := ([e], x)

/-- Modelled from the spec: the external collaborators of this file, which
are not part of the provided sources. Spec §6: the base class provides a
constructor taking the config, a `load_state()` method, and
context-manager semantics (`enter` models `__enter__`, which in the code
yields the validator bound by `with ... as validator`; `exitFn` models
`__exit__`); `forward` is the externally supplied coroutine from
`oneoneone.validator`, which receives the instance and may return any
value `R` and mutate the instance. Each field is an arbitrary behaviour:
it either produces a result state/value or raises an exception. -/
structure Env (R : Type) where
  baseInit : Option Config → Except Nat BaseState
  load_state : BaseState → Except Nat BaseState
  enter : BaseState → Except Nat BaseState
  exitFn : BaseState → Except Nat Unit
  forward : BaseState → Except Nat (R × BaseState)

/-- The log message of `Validator.__init__`, reading `self.config.netuid`. -/
def netuidMsg (s : BaseState) : String :=
  "Validator initialized with netuid: " ++ toString s.config.netuid

/-- The success log message of the main block, reading `validator.uid`. -/
def uidMsg (s : BaseState) : String :=
  "Validator started successfully on uid: " ++ toString s.uid

/-- Embedding of `Validator.__init__(self, config=None)`:
`super().__init__(config=config)`, then
`bt.logging.info(f"Validator initialized with netuid: {self.config.netuid}")`,
then `bt.logging.info("Loading validator state...")`, then
`self.load_state()`. -/
def Validator.init {R : Type} (env : Env R) (config : Option Config) : Eff BaseState :=
  Eff.bind (extCall (Event.callBaseInit config) (env.baseInit config)) fun s =>
  Eff.bind (logInfo (netuidMsg s)) fun _ =>
  Eff.bind (logInfo "Loading validator state...") fun _ =>
  extCall Event.callLoadState (env.load_state s)

/-- Embedding of the call `Validator()` with the configuration argument
omitted: Python substitutes the declared default `config=None`. -/
def Validator.initDefault {R : Type} (env : Env R) : Eff BaseState :=
  Validator.init env none

/-- Embedding of `Validator.forward(self)`, whose whole body is
`return await forward(self)`: call the external coroutine on `self` and
return its result (the pair is the returned value together with the
possibly mutated instance state). -/
def Validator.forward {R : Type} (env : Env R) (self : BaseState) : Eff (R × BaseState) :=
  extCall Event.callForward (env.forward self)

/-- The specification's description of `forward`, stated in its own
words: "awaits and returns the result of an externally supplied
coroutine, passing `self` as context" — i.e. exactly the external
coroutine's outcome on `self`, nothing else. Used to compare the code
embedding `Validator.forward` against the spec. -/
def forwardSpec {R : Type} (env : Env R) (self : BaseState) : Except Nat (R × BaseState) :=
  env.forward self

/-- The guard of the main loop: the literal `True` of `while True:`. -/
def loopGuard : Bool := true

/-- The two events one loop iteration emits, given the rendered timestamp
string `ts` (the value of `time.time()` at that iteration): the
informational log line, then the 30-second sleep. -/
def bodyEvents (ts : String) : List Event :=
  [Event.log LogLevel.info ("Validator running... " ++ ts), Event.sleep 30]

/-- Whether execution is still inside the loop (`more`) or the loop
finished normally because its guard failed (`done`). -/
inductive RunState (α : Type)
  | more (a : α)
  | done (a : α)
deriving DecidableEq, Repr

/-- Fuel-indexed embedding of the main loop
`while True: bt.logging.info(f"Validator running... {time.time()}"); time.sleep(30)`.
`time k` is the timestamp string observed at iteration `k`; `i` is the
index of the next iteration; `n` is the remaining fuel; `s` is the
validator state, which the body never touches. Out of fuel means
execution is still inside the loop. -/
def loopRun (time : Nat → String) : Nat → Nat → BaseState → Eff (RunState BaseState)
  | _, 0, s => Eff.pure (RunState.more s)
  | i, Nat.succ n, s =>
      if loopGuard then
        Eff.bind (logInfo ("Validator running... " ++ time i)) fun _ =>
        Eff.bind (sleepFor 30) fun _ =>
        loopRun time (i + 1) n s
      else
        Eff.pure (RunState.done s)

/-- Control state of the loop viewed as a transition system: about to test
the guard before iteration `i`, or exited after iteration `i`. -/
inductive LoopStatus
  | running (i : Nat)
  | exited (i : Nat)
deriving DecidableEq, Repr

/-- One control step of `while True`: if the guard holds, run the body and
advance to the next iteration; otherwise exit. Exited is absorbing. -/
def loopStep : LoopStatus → LoopStatus
  | LoopStatus.running i => if loopGuard then LoopStatus.running (i + 1) else LoopStatus.exited i
  | LoopStatus.exited i => LoopStatus.exited i

/-- The loop's control state after `n` steps from the start of the loop. -/
def loopIters : Nat → LoopStatus
  | 0 => LoopStatus.running 0
  | Nat.succ n => loopStep (loopIters n)

/-- Embedding of the `__main__` block, to `n` loop iterations:
`bt.logging.info("Starting oneoneone validator...")`, then
`with Validator() as validator:` (construct with the omitted-config
default, call `__enter__`, bind its result), then
`bt.logging.success(f"Validator started successfully on uid: {validator.uid}")`,
then the loop. If the loop body ever terminated normally the `with`
statement would call `__exit__`; that branch is part of the embedding so
its unreachability is a theorem, not an omission. -/
def mainRun {R : Type} (env : Env R) (time : Nat → String) (n : Nat) :
    Eff (RunState BaseState) :=
  Eff.bind (logInfo "Starting oneoneone validator...") fun _ =>
  Eff.bind (Validator.init env none) fun v =>
  Eff.bind (extCall Event.callEnter (env.enter v)) fun w =>
  Eff.bind (logSuccess (uidMsg w)) fun _ =>
  Eff.bind (loopRun time 0 n w) fun r =>
  match r with
  | RunState.more s => Eff.pure (RunState.more s)
  | RunState.done s =>
      Eff.bind (extCall Event.callExit (env.exitFn s)) fun _ =>
      Eff.pure (RunState.done s)

/-- Is this event a log line or a sleep (the only actions the visible
loop body performs)? -/
def Event.isLogOrSleep : Event → Bool
  | Event.log _ _ => true
  | Event.sleep _ => true
  | _ => false

/-- Is this event a call to `Validator.forward` / the external `forward`? -/
def Event.isFwdCall : Event → Bool
  | Event.callForward => true
  | _ => false

/-- Is this event the context manager's release step (`__exit__`)? -/
def Event.isExit : Event → Bool
  | Event.callExit => true
  | _ => false

/-- A sample configuration for witnesses. -/
def sampleConfig : Config := { netuid := 111 }

/-- A sample base state for witnesses. -/
def sampleState : BaseState := { config := sampleConfig, uid := 5, internal := 42 }

/-- A second sample base state, the result of `load_state` in witnesses. -/
def sampleState2 : BaseState := { config := sampleConfig, uid := 5, internal := 43 }

/-- A sample timestamp renderer for witnesses. -/
def sampleTime (k : Nat) : String := toString k

/-- A fully successful sample environment for witnesses. -/
def envOk : Env Nat :=
  { baseInit := fun _ => Except.ok sampleState
    load_state := fun _ => Except.ok sampleState2
    enter := fun s => Except.ok s
    exitFn := fun _ => Except.ok ()
    forward := fun s => Except.ok (9, s) }

/-- A sample environment whose base constructor raises (code 7). -/
def envFailInit : Env Nat :=
  { envOk with baseInit := fun _ => Except.error 7 }

/-- A sample environment whose `load_state` raises (code 8). -/
def envFailLoad : Env Nat :=
  { envOk with load_state := fun _ => Except.error 8 }

/-- A sample environment whose `__enter__` raises (code 9). -/
def envFailEnter : Env Nat :=
  { envOk with enter := fun _ => Except.error 9 }

/-- A sample environment whose external `forward` coroutine raises
(code 6). -/
def envFailFwd : Env Nat :=
  { envOk with forward := fun _ => Except.error 6 }

/-! ## Helper lemmas -/

theorem Eff.bind_err {α β : Type} (m : Eff α) (f : α → Eff β) (e : Nat)
    (h : m.2 = Except.error e) : Eff.bind m f = (m.1, Except.error e) := by
  rcases m with ⟨evs, x⟩
  cases x with
  | error e2 =>
      simp at h
      subst h
      rfl
  | ok a => simp at h

theorem Eff.bind_ok {α β : Type} (m : Eff α) (f : α → Eff β) (a : α)
    (h : m.2 = Except.ok a) : Eff.bind m f = (m.1 ++ (f a).1, (f a).2) := by
  rcases m with ⟨evs, x⟩
  cases x with
  | error e2 => simp at h
  | ok b =>
      simp at h
      subst h
      rfl

theorem init_eq_ok {R : Type} (env : Env R) (cfg : Option Config) (s : BaseState)
    (h : env.baseInit cfg = Except.ok s) :
    Validator.init env cfg =
      ([Event.callBaseInit cfg, Event.log LogLevel.info (netuidMsg s),
        Event.log LogLevel.info "Loading validator state...", Event.callLoadState],
       env.load_state s) := by
  simp [Validator.init, extCall, logInfo, h, Eff.bind]

theorem init_eq_err {R : Type} (env : Env R) (cfg : Option Config) (e : Nat)
    (h : env.baseInit cfg = Except.error e) :
    Validator.init env cfg = ([Event.callBaseInit cfg], Except.error e) := by
  simp [Validator.init, extCall, h, Eff.bind]

theorem loopRun_eq (time : Nat → String) (s : BaseState) :
    ∀ n i : Nat, loopRun time i n s =
      ((List.range n).flatMap (fun k => bodyEvents (time (i + k))),
       Except.ok (RunState.more s)) := by
  intro n
  induction n with
  | zero => intro i; simp [loopRun, Eff.pure]
  | succ m ih =>
      intro i
      have hstep : loopRun time i (m + 1) s =
          (bodyEvents (time i) ++ (loopRun time (i + 1) m s).1,
           (loopRun time (i + 1) m s).2) := by
        simp only [loopRun, loopGuard, if_true]
        rw [Eff.bind_ok (logInfo ("Validator running... " ++ time i)) _ () rfl]
        rw [Eff.bind_ok (sleepFor 30) _ () rfl]
        simp [logInfo, sleepFor, bodyEvents]
      rw [hstep, ih (i + 1)]
      have harith : ∀ k : Nat, (i + 1) + k = i + (k + 1) := by intro k; omega
      rw [List.range_succ_eq_map]
      simp [List.flatMap_map, harith]

theorem loop_all_logOrSleep (time : Nat → String) (s : BaseState) (i n : Nat) :
    ((loopRun time i n s).1.all Event.isLogOrSleep) = true := by
  rw [loopRun_eq]
  refine List.all_eq_true.mpr ?_
  intro a ha
  rcases List.mem_flatMap.mp ha with ⟨k, hk, hmem⟩
  simp [bodyEvents] at hmem
  rcases hmem with h | h <;> subst h <;> rfl

theorem loopRun_countP (time : Nat → String) (s : BaseState) (i n : Nat)
    (p : Event → Bool)
    (hlog : ∀ lv m, p (Event.log lv m) = false)
    (hsleep : ∀ d, p (Event.sleep d) = false) :
    ((loopRun time i n s).1.countP p) = 0 := by
  rw [loopRun_eq]
  refine List.countP_eq_zero.mpr ?_
  intro a ha
  rcases List.mem_flatMap.mp ha with ⟨k, hk, hmem⟩
  simp [bodyEvents] at hmem
  rcases hmem with h | h <;> subst h <;> simp [hlog, hsleep]

theorem mainRun_eq_initErr {R : Type} (env : Env R) (time : Nat → String) (n : Nat)
    (e : Nat) (h : env.baseInit none = Except.error e) :
    mainRun env time n =
      ([Event.log LogLevel.info "Starting oneoneone validator...",
        Event.callBaseInit none], Except.error e) := by
  unfold mainRun
  rw [Eff.bind_ok (logInfo "Starting oneoneone validator...") _ () rfl]
  rw [Eff.bind_err (Validator.init env none) _ e (by rw [init_eq_err env none e h])]
  simp [logInfo, init_eq_err env none e h]

theorem mainRun_eq_loadErr {R : Type} (env : Env R) (time : Nat → String) (n : Nat)
    (v : BaseState) (e : Nat) (h1 : env.baseInit none = Except.ok v)
    (h2 : env.load_state v = Except.error e) :
    mainRun env time n =
      ([Event.log LogLevel.info "Starting oneoneone validator...",
        Event.callBaseInit none, Event.log LogLevel.info (netuidMsg v),
        Event.log LogLevel.info "Loading validator state...", Event.callLoadState],
       Except.error e) := by
  unfold mainRun
  rw [Eff.bind_ok (logInfo "Starting oneoneone validator...") _ () rfl]
  rw [Eff.bind_err (Validator.init env none) _ e
    (by rw [init_eq_ok env none v h1]; exact h2)]
  simp [logInfo, init_eq_ok env none v h1]

theorem mainRun_eq_enterErr {R : Type} (env : Env R) (time : Nat → String) (n : Nat)
    (v w : BaseState) (e : Nat) (h1 : env.baseInit none = Except.ok v)
    (h2 : env.load_state v = Except.ok w) (h3 : env.enter w = Except.error e) :
    mainRun env time n =
      ([Event.log LogLevel.info "Starting oneoneone validator...",
        Event.callBaseInit none, Event.log LogLevel.info (netuidMsg v),
        Event.log LogLevel.info "Loading validator state...", Event.callLoadState,
        Event.callEnter], Except.error e) := by
  unfold mainRun
  rw [Eff.bind_ok (logInfo "Starting oneoneone validator...") _ () rfl]
  rw [Eff.bind_ok (Validator.init env none) _ w
    (by rw [init_eq_ok env none v h1]; exact h2)]
  rw [Eff.bind_err (extCall Event.callEnter (env.enter w)) _ e (by simp [extCall, h3])]
  simp [logInfo, init_eq_ok env none v h1, extCall]

theorem mainRun_eq_ok {R : Type} (env : Env R) (time : Nat → String) (n : Nat)
    (v w u : BaseState) (h1 : env.baseInit none = Except.ok v)
    (h2 : env.load_state v = Except.ok w) (h3 : env.enter w = Except.ok u) :
    mainRun env time n =
      (Event.log LogLevel.info "Starting oneoneone validator..." ::
       Event.callBaseInit none :: Event.log LogLevel.info (netuidMsg v) ::
       Event.log LogLevel.info "Loading validator state..." :: Event.callLoadState ::
       Event.callEnter :: Event.log LogLevel.success (uidMsg u) ::
       (loopRun time 0 n u).1, Except.ok (RunState.more u)) := by
  unfold mainRun
  rw [Eff.bind_ok (logInfo "Starting oneoneone validator...") _ () rfl]
  rw [Eff.bind_ok (Validator.init env none) _ w
    (by rw [init_eq_ok env none v h1]; exact h2)]
  rw [Eff.bind_ok (extCall Event.callEnter (env.enter w)) _ u (by simp [extCall, h3])]
  rw [Eff.bind_ok (logSuccess (uidMsg u)) _ () rfl]
  rw [Eff.bind_ok (loopRun time 0 n u) _ (RunState.more u) (by rw [loopRun_eq])]
  simp [logInfo, logSuccess, extCall, init_eq_ok env none v h1, Eff.pure]

theorem mainRun_countP {R : Type} (env : Env R) (time : Nat → String) (n : Nat)
    (p : Event → Bool)
    (hlog : ∀ lv m, p (Event.log lv m) = false)
    (hsleep : ∀ d, p (Event.sleep d) = false)
    (hbi : ∀ cfg, p (Event.callBaseInit cfg) = false)
    (hls : p Event.callLoadState = false)
    (hen : p Event.callEnter = false) :
    ((mainRun env time n).1.countP p) = 0 := by
  cases h1 : env.baseInit none with
  | error e =>
      rw [mainRun_eq_initErr env time n e h1]
      simp [List.countP_cons, hlog, hbi]
  | ok v =>
      cases h2 : env.load_state v with
      | error e =>
          rw [mainRun_eq_loadErr env time n v e h1 h2]
          simp [List.countP_cons, hlog, hbi, hls]
      | ok w =>
          cases h3 : env.enter w with
          | error e =>
              rw [mainRun_eq_enterErr env time n v w e h1 h2 h3]
              simp [List.countP_cons, hlog, hbi, hls, hen]
          | ok u =>
              rw [mainRun_eq_ok env time n v w u h1 h2 h3]
              simp [List.countP_cons, hlog, hbi, hls, hen,
                loopRun_countP time u 0 n p hlog hsleep]

/-! ## Claim theorems -/

/-- Claim C1: for every validator instance, `Validator.forward` calls the
external `forward` coroutine with `self` as its sole argument and returns
exactly what that coroutine returns (value, mutated state, or exception),
unmodified — the code embedding agrees with the spec-side `forwardSpec`,
and the only action it performs is that single external call. -/
theorem forward_returns_external_unmodified {R : Type} (env : Env R) (self : BaseState) :
    (Validator.forward env self).2 = forwardSpec env self ∧
    (Validator.forward env self).1 = [Event.callForward] :=
  ⟨rfl, rfl⟩

/-- Claim C2: constructing a `Validator` with any config value (and the
omitted/default case is exactly a `None` config) first constructs the base
class with exactly that config value, then calls `load_state` exactly
once: the trace is exactly one base-constructor call carrying the
untransformed config, the two log lines, and one `load_state` call, and
the result is whatever `load_state` produced. -/
theorem init_constructs_base_then_loads {R : Type} (env : Env R) (cfg : Option Config)
    (s : BaseState) (h : env.baseInit cfg = Except.ok s) :
    Validator.initDefault env = Validator.init env none ∧
    (Validator.init env cfg).1 =
      [Event.callBaseInit cfg, Event.log LogLevel.info (netuidMsg s),
       Event.log LogLevel.info "Loading validator state...", Event.callLoadState] ∧
    (Validator.init env cfg).2 = env.load_state s := by
  refine ⟨rfl, ?_, ?_⟩ <;> rw [init_eq_ok env cfg s h]

/-- Witness for C2 at a concrete environment and config. -/
theorem init_constructs_base_then_loads_witness :
    envOk.baseInit (some sampleConfig) = Except.ok sampleState ∧
    (Validator.init envOk (some sampleConfig)).2 = envOk.load_state sampleState :=
  ⟨rfl, (init_constructs_base_then_loads envOk (some sampleConfig) sampleState rfl).2.2⟩

/-- Claim C3: the main run loop never exits under normal operation: the
guard of `while True` always holds, and after any number `n` of control
steps the loop is still in the running state, never exited. -/
theorem loop_never_exits :
    loopGuard = true ∧ ∀ n : Nat, loopIters n = LoopStatus.running n := by
  refine ⟨rfl, ?_⟩
  intro n
  induction n with
  | zero => rfl
  | succ m ih => simp [loopIters, loopStep, loopGuard, ih]

/-- Claim C4: every iteration of the main loop performs exactly two
actions in order — one informational log line containing that iteration's
timestamp, then a sleep of exactly 30 seconds — with the same constant
interval at every iteration. -/
theorem loop_iteration_two_actions (time : Nat → String) (s : BaseState) (n : Nat) :
    (loopRun time 0 n s).1 =
      (List.range n).flatMap
        (fun k => [Event.log LogLevel.info ("Validator running... " ++ time k),
                   Event.sleep 30]) := by
  rw [loopRun_eq]
  simp [bodyEvents]

/-- Claim C5: no exception is caught anywhere in this file: an exception
raised by the base constructor, by `load_state`, by the external `forward`
coroutine, or during construction/entry in the main block propagates
unchanged out of `Validator.init`, `Validator.forward`, and the main
block. -/
theorem exceptions_propagate_uncaught {R : Type} (env : Env R) (time : Nat → String)
    (cfg : Option Config) (s : BaseState) (e : Nat) (n : Nat) :
    (env.baseInit cfg = Except.error e → (Validator.init env cfg).2 = Except.error e) ∧
    (∀ s0, env.baseInit cfg = Except.ok s0 → env.load_state s0 = Except.error e →
      (Validator.init env cfg).2 = Except.error e) ∧
    (env.forward s = Except.error e → (Validator.forward env s).2 = Except.error e) ∧
    ((Validator.init env none).2 = Except.error e →
      (mainRun env time n).2 = Except.error e) ∧
    (∀ v, (Validator.init env none).2 = Except.ok v → env.enter v = Except.error e →
      (mainRun env time n).2 = Except.error e) := by
  refine ⟨?_, ?_, ?_, ?_, ?_⟩
  · intro h
    rw [init_eq_err env cfg e h]
  · intro s0 h1 h2
    rw [init_eq_ok env cfg s0 h1]
    exact h2
  · intro h
    simp [Validator.forward, extCall, h]
  · intro h
    cases h1 : env.baseInit none with
    | error e2 =>
        rw [init_eq_err env none e2 h1] at h
        simp at h
        subst h
        rw [mainRun_eq_initErr env time n e2 h1]
    | ok v =>
        have hload : env.load_state v = Except.error e := by
          rw [init_eq_ok env none v h1] at h
          exact h
        rw [mainRun_eq_loadErr env time n v e h1 hload]
  · intro v hok henter
    cases h1 : env.baseInit none with
    | error e2 =>
        rw [init_eq_err env none e2 h1] at hok
        simp at hok
    | ok v0 =>
        have hload : env.load_state v0 = Except.ok v := by
          rw [init_eq_ok env none v0 h1] at hok
          exact hok
        rw [mainRun_eq_enterErr env time n v0 v e h1 hload henter]

/-- Witness for C5: concrete failing environments for the base
constructor, `load_state`, the external coroutine, and `__enter__`. -/
theorem exceptions_propagate_uncaught_witness :
    (Validator.init envFailInit none).2 = Except.error 7 ∧
    (Validator.init envFailLoad none).2 = Except.error 8 ∧
    (Validator.forward envFailFwd sampleState).2 = Except.error 6 ∧
    (mainRun envFailInit sampleTime 3).2 = Except.error 7 ∧
    (mainRun envFailEnter sampleTime 3).2 = Except.error 9 :=
  ⟨(exceptions_propagate_uncaught envFailInit sampleTime none sampleState 7 3).1 rfl,
   (exceptions_propagate_uncaught envFailLoad sampleTime none sampleState 8 3).2.1
     sampleState rfl rfl,
   (exceptions_propagate_uncaught envFailFwd sampleTime none sampleState 6 3).2.2.1 rfl,
   (exceptions_propagate_uncaught envFailInit sampleTime none sampleState 7 3).2.2.2.1 rfl,
   (exceptions_propagate_uncaught envFailEnter sampleTime none sampleState 9 3).2.2.2.2
     sampleState2 rfl rfl⟩

/-- Claim C6: constructing the Validator without a configuration argument
succeeds and does not raise: under the hypothesis that the base
constructor and `load_state` accept the `None` config without error,
`Validator()` returns a fully initialized instance. -/
theorem construct_without_config_succeeds {R : Type} (env : Env R) (s t : BaseState)
    (h1 : env.baseInit none = Except.ok s) (h2 : env.load_state s = Except.ok t) :
    (Validator.initDefault env).2 = Except.ok t := by
  unfold Validator.initDefault
  rw [init_eq_ok env none s h1]
  exact h2

/-- Witness for C6 at a concrete environment. -/
theorem construct_without_config_succeeds_witness :
    (Validator.initDefault envOk).2 = Except.ok sampleState2 :=
  construct_without_config_succeeds envOk sampleState sampleState2 rfl rfl

/-- Claim C7: this file never writes the base-owned fields: the instance
state after `Validator.init` is exactly the value the delegated base-class
chain (constructor then `load_state`) established, each loop iteration
leaves the state exactly unchanged, and the state after
`Validator.forward` is exactly the one the external coroutine produced. -/
theorem fields_owned_by_base {R : Type} (env : Env R) (time : Nat → String)
    (cfg : Option Config) (s : BaseState) (i n : Nat) :
    (∀ t, (Validator.init env cfg).2 = Except.ok t ↔
      ∃ s0, env.baseInit cfg = Except.ok s0 ∧ env.load_state s0 = Except.ok t) ∧
    (loopRun time i n s).2 = Except.ok (RunState.more s) ∧
    (∀ r t, (Validator.forward env s).2 = Except.ok (r, t) ↔
      env.forward s = Except.ok (r, t)) := by
  refine ⟨?_, ?_, ?_⟩
  · intro t
    cases h1 : env.baseInit cfg with
    | error e =>
        rw [init_eq_err env cfg e h1]
        constructor
        · intro h
          simp at h
        · rintro ⟨s0, hs0, -⟩
          simp at hs0
    | ok s0 =>
        rw [init_eq_ok env cfg s0 h1]
        constructor
        · intro h
          exact ⟨s0, rfl, h⟩
        · rintro ⟨s1, hs1, hload⟩
          injection hs1 with hh
          subst hh
          exact hload
  · rw [loopRun_eq]
  · intro r t
    exact Iff.rfl

/-- Witness for C7 at a concrete environment. -/
theorem fields_owned_by_base_witness :
    (Validator.init envOk none).2 = Except.ok sampleState2 :=
  ((fields_owned_by_base envOk sampleTime none sampleState 0 3).1 sampleState2).mpr
    ⟨sampleState, rfl, rfl⟩

/-- Claim C8: the visible main run loop never invokes `Validator.forward`:
every event the loop emits is a log line or a sleep, and the whole main
block's trace (construction, entry, and any number of loop iterations)
contains zero calls to the `forward` coroutine. -/
theorem loop_never_calls_forward {R : Type} (env : Env R) (time : Nat → String)
    (s : BaseState) (i n : Nat) :
    ((loopRun time i n s).1.all Event.isLogOrSleep) = true ∧
    ((mainRun env time n).1.countP Event.isFwdCall) = 0 := by
  refine ⟨loop_all_logOrSleep time s i n, ?_⟩
  exact mainRun_countP env time n Event.isFwdCall (fun _ _ => rfl) (fun _ => rfl)
    (fun _ => rfl) rfl rfl

/-- Claim C9: the subclass introduces no state of its own (its instance
state is exactly `BaseState`), so any invariant on the base state is
preserved by everything the subclass adds: the `__init__` extension yields
exactly the state the delegated base calls produce, `forward` preserves
any invariant the external coroutine preserves, and every loop iteration
preserves every invariant because it leaves the state untouched. -/
theorem subclass_adds_no_state {R : Type} (env : Env R) (P : BaseState → Prop)
    (cfg : Option Config) :
    ((∀ s0 s1, env.baseInit cfg = Except.ok s0 → env.load_state s0 = Except.ok s1 → P s1) →
      ∀ t, (Validator.init env cfg).2 = Except.ok t → P t) ∧
    ((∀ u r u2, P u → env.forward u = Except.ok (r, u2) → P u2) →
      ∀ u r u2, P u → (Validator.forward env u).2 = Except.ok (r, u2) → P u2) ∧
    (∀ (time : Nat → String) (u : BaseState) (i n : Nat) (v : BaseState), P u →
      (loopRun time i n u).2 = Except.ok (RunState.more v) → P v) := by
  refine ⟨?_, ?_, ?_⟩
  · intro hbase t ht
    cases h1 : env.baseInit cfg with
    | error e =>
        rw [init_eq_err env cfg e h1] at ht
        simp at ht
    | ok s0 =>
        rw [init_eq_ok env cfg s0 h1] at ht
        exact hbase s0 t h1 ht
  · intro hfwd u r u2 hPu h
    exact hfwd u r u2 hPu h
  · intro time u i n v hPu h
    rw [loopRun_eq] at h
    simp at h
    subst h
    exact hPu

/-- Witness for C9: a concrete invariant established through the
subclass's construction path. -/
theorem subclass_adds_no_state_witness : sampleState2.uid = 5 :=
  (subclass_adds_no_state envOk (fun st => st.uid = 5) none).1
    (by
      intro s0 s1 h1 h2
      simp [envOk] at h2
      subst h2
      rfl)
    sampleState2 rfl

/-- Claim C10: on the normal (exception-free) path the context manager's
release step is unreachable: the loop never terminates normally (after any
amount of fuel it is still inside the loop), hence for every number of
iterations the main block's trace contains zero `__exit__` calls —
resources are released only if an exception propagates or the process is
killed externally. -/
theorem exit_step_unreachable {R : Type} (env : Env R) (time : Nat → String)
    (s : BaseState) (i n : Nat) :
    ((mainRun env time n).1.countP Event.isExit) = 0 ∧
    (loopRun time i n s).2 = Except.ok (RunState.more s) := by
  refine ⟨?_, ?_⟩
  · exact mainRun_countP env time n Event.isExit (fun _ _ => rfl) (fun _ => rfl)
      (fun _ => rfl) rfl rfl
  · rw [loopRun_eq]
